import Mathlib

/-!
Verification development for the SENTINEL repository.

The Rust core (goal graph, security scanner, alignment engine, governance
engine, manifold store) is not part of the visible sources; where a claim is
decided by that core, the definitions below are modelled from the natural
language specification (each such definition carries a doc comment starting
with `Modelled from the spec:`).  The Python sources that are visible
(`sentinel_sdk/types.py`, `sentinel_sdk/client.py`,
`scripts/gemini_cli_proxy.py`) are embedded directly.
-/

/-! ## Shared helpers -/

/-- Count the words of a character list, splitting on runs of whitespace
and dropping empty pieces; `inWord` says whether the previous character was
part of a word. -/
def wordCountAux : List Char → Bool → Nat
  | [], _ => 0
  | c :: cs, inWord =>
    if c.isWhitespace then wordCountAux cs false
    else if inWord then wordCountAux cs true
    else wordCountAux cs true + 1

/-- Whitespace word count of a string, mirroring Python `str.split()`:
split on runs of whitespace and drop empty pieces. -/
def pySplitCount (s : String) : Nat :=
  wordCountAux s.data false

/-! ## C10 — `make_openai_response` usage arithmetic
(`src/scripts/gemini_cli_proxy.py`, lines 102-127) -/

/-- The `usage` object of an OpenAI-compatible response. -/
structure Usage where
  prompt_tokens : Nat
  completion_tokens : Nat
  total_tokens : Nat
deriving DecidableEq, Repr

/-- Embedding of the `usage` computation of `make_openai_response` in
`scripts/gemini_cli_proxy.py`:
`prompt_tokens = max(0, token_count - len(content.split()))`,
`completion_tokens = len(content.split())`,
`total_tokens = token_count if token_count > 0 else len(content.split())`.
`token_count` is a non-negative integer coming from the Gemini CLI stats. -/
def makeOpenaiUsage (content : String) (token_count : Nat) : Usage :=
  { prompt_tokens := (max 0 ((token_count : Int) - (pySplitCount content : Int))).toNat
    completion_tokens := pySplitCount content
    total_tokens := if token_count > 0 then token_count else pySplitCount content }

/-- The C10 claim, as stated: for every content and every non-negative
token count, `prompt_tokens + completion_tokens = total_tokens`. -/
def usageAdditive (content : String) (token_count : Nat) : Prop :=
  (makeOpenaiUsage content token_count).prompt_tokens
      + (makeOpenaiUsage content token_count).completion_tokens
    = (makeOpenaiUsage content token_count).total_tokens

instance (content : String) (token_count : Nat) :
    Decidable (usageAdditive content token_count) := by
  unfold usageAdditive; infer_instance

/-! ## JSON values (decoded Python data) -/

/-- Checks whether the first list is an initial segment of the second. -/
def leadsWith : List Char → List Char → Bool
  | [], _ => true
  | _ :: _, [] => false
  | x :: xs, y :: ys => x == y && leadsWith xs ys

/-- Checks whether `needle` occurs as a contiguous sublist of the second
argument. -/
def hasSub (needle : List Char) : List Char → Bool
  | [] => needle.isEmpty
  | c :: cs => leadsWith needle (c :: cs) || hasSub needle cs

/-- Substring test on strings (Python `needle in hay`). -/
def containsSub (needle hay : String) : Bool :=
  hasSub needle.data hay.data

/-- A decoded JSON value, as produced by Python `json.loads`.  Numbers are
modelled as rationals (covering both JSON integers and decimals). -/
inductive Json where
  | null
  | boolean (b : Bool)
  | num (q : Rat)
  | str (s : String)
  | arr (xs : List Json)
  | obj (kvs : List (String × Json))
deriving Repr

/-- First value bound to `k` in a JSON object's key-value list (Python dict
lookup; keys are unique in decoded JSON). -/
def objLookup (kvs : List (String × Json)) (k : String) : Option Json :=
  match kvs with
  | [] => none
  | (k2, v) :: rest => if k2 == k then some v else objLookup rest k

/-- Python equality of a JSON value with a string: only an equal string
compares equal. -/
def jsonEqStr (j : Json) (k : String) : Bool :=
  match j with
  | Json.str s => s == k
  | _ => false

/-! ## C8 — `Predicate.parse_rust_enum`
(`src/sdks/python/sentinel_sdk/types.py`, lines 16-25) -/

/-- Errors raised while constructing a pydantic `Predicate` from a decoded
JSON value. -/
inductive PredicateExn where
  | dictError
  | typeError
deriving DecidableEq, Repr

/-- The constructed `Predicate` model: `parse_rust_enum` stores the raw
constructor input under the `content` field. -/
structure PredicateModel where
  content : Json
deriving Repr

/-- Embedding of the `parse_rust_enum` pre root-validator of
`types.py`: it unconditionally wraps the raw input values under the
`content` key (`return {"content": values}`). -/
def parse_rust_enum (values : Json) : Json :=
  Json.obj [("content", values)]

/-- Python `dict(x)` applied to a decoded JSON list: succeeds only when
every element is a two-element `[key, value]` array with a string key
(pydantic v1 falls back to `dict(value)` for non-dict inputs). -/
def pairsOfArr : List Json → Option (List (String × Json))
  | [] => some []
  | Json.arr [Json.str k, v] :: rest =>
      (pairsOfArr rest).map (fun tl => (k, v) :: tl)
  | _ => none

/-- pydantic v1 validation of the `content` field, declared as
`Optional[Union[str, Dict[str, Any]]]`: `None`, strings and dicts are
stored as they are; numbers and booleans are coerced to strings by the lax
`str` validator; lists fail both union members. -/
def contentFieldValidated : Json → Option Json
  | Json.null => some Json.null
  | Json.str s => some (Json.str s)
  | Json.obj kvs => some (Json.obj kvs)
  | Json.num q => some (Json.str (toString q))
  | Json.boolean b => some (Json.str (if b then "True" else "False"))
  | Json.arr _ => none

/-- Construction of the model from an already-wrapped field dict: extract
the `content` entry (absent means the `None` default) and validate it. -/
def predicateFromFields (wrapped : Json) : Except PredicateExn PredicateModel :=
  match wrapped with
  | Json.obj w =>
    match objLookup w "content" with
    | some c =>
      match contentFieldValidated c with
      | some c2 => .ok { content := c2 }
      | none => .error .typeError
    | none => .ok { content := Json.null }
  | _ => .error .typeError

/-- Embedding of constructing a `Predicate` from a decoded JSON value under
pydantic v1 `BaseModel.validate` semantics: a dict input runs the class's
own `parse_rust_enum` pre-validator and then validates the `content` field;
a non-dict input is rejected by pydantic's dict enforcement
(`dict(value)` fails with `DictError`) *before* `parse_rust_enum` runs,
except that a list of `[key, value]` pairs coerces to a dict. -/
def predicateValidate (v : Json) : Except PredicateExn PredicateModel :=
  match v with
  | Json.obj kvs => predicateFromFields (parse_rust_enum (Json.obj kvs))
  | Json.arr xs =>
    match pairsOfArr xs with
    | some kvs => predicateFromFields (parse_rust_enum (Json.obj kvs))
    | none => .error .dictError
  | _ => .error .dictError

/-! ## C9 — `SentinelClient.status`
(`src/sdks/python/sentinel_sdk/client.py`, lines 42-69) -/

/-- Exceptions that can escape `SentinelClient.status` while processing the
CLI output (after the subprocess succeeded). -/
inductive StatusExn where
  | sentinelError
  | typeError
  | keyError
  | validationError
deriving DecidableEq, Repr

/-- Python membership test `k in data` on a decoded JSON value: key lookup
for dicts, substring test for strings, element equality for lists;
`TypeError` for non-iterable values (numbers, booleans, `None`). -/
def pyContains (k : String) : Json → Except StatusExn Bool
  | Json.obj kvs => .ok (kvs.any (fun p => p.1 == k))
  | Json.str s => .ok (containsSub k s)
  | Json.arr xs => .ok (xs.any (fun j => jsonEqStr j k))
  | _ => .error .typeError

/-- Python subscription `data[k]` with a string key: dict lookup
(`KeyError` when absent); strings and lists raise `TypeError` for string
indices, as do non-subscriptable values. -/
def pyIndex (data : Json) (k : String) : Except StatusExn Json :=
  match data with
  | Json.obj kvs =>
    match objLookup kvs k with
    | some v => .ok v
    | none => .error .keyError
  | _ => .error .typeError

/-- Python item assignment `data[k] = v`: dicts replace the binding in
place or append it; every other value raises `TypeError`. -/
def pySetItem (data : Json) (k : String) (v : Json) : Except StatusExn Json :=
  match data with
  | Json.obj kvs =>
    if kvs.any (fun p => p.1 == k) then
      .ok (Json.obj (kvs.map (fun p => cond (p.1 == k) (p.1, v) p)))
    else
      .ok (Json.obj (kvs ++ [(k, v)]))
  | _ => .error .typeError

/-- The slice of the pydantic `GoalManifold` model that
`SentinelClient.status` returns and that the claim observes: the `goals`
field.  `GoalManifold(**m_data)` validates `goals: List[Goal]`, which
requires a list value; element-level `Goal` validation and the remaining
fields are orthogonal to which source populates `goals` and are not
modelled. -/
structure SdkGoalManifold where
  goals : List Json
deriving Repr

/-- `GoalManifold(**m_data)` on the adapted dict: keyword expansion
requires a dict, and the `goals` field (just assigned by the client) must
be a list. -/
def goalManifoldCtor (m_data : Json) : Except StatusExn SdkGoalManifold :=
  match m_data with
  | Json.obj kvs =>
    match objLookup kvs "goals" with
    | some (Json.arr xs) => .ok { goals := xs }
    | some _ => .error .validationError
    | none => .ok { goals := [] }
  | _ => .error .typeError

/-- The guarded extraction
`goals_list = m_data["goal_dag"]["nodes"] if "goal_dag" in m_data and
"nodes" in m_data["goal_dag"] else []` of `status`; the first conjunct
(`cond1`) has already been evaluated. -/
def statusGoalsList (m_data : Json) (cond1 : Bool) : Except StatusExn Json :=
  if cond1 then
    match pyIndex m_data "goal_dag" with
    | .error e => .error e
    | .ok gd =>
      match pyContains "nodes" gd with
      | .error e => .error e
      | .ok cond2 =>
        if cond2 then pyIndex gd "nodes" else .ok (Json.arr [])
  else .ok (Json.arr [])

/-- The tail of `status`: `m_data["goals"] = goals_list` followed by
`GoalManifold(**m_data)`. -/
def statusAssignGoals (m_data : Json) (goalsListE : Except StatusExn Json) :
    Except StatusExn SdkGoalManifold :=
  match goalsListE with
  | .error e => .error e
  | .ok goals_list =>
    match pySetItem m_data "goals" goals_list with
    | .error e => .error e
    | .ok m_data2 => goalManifoldCtor m_data2

/-- The body of `SentinelClient.status` from `m_data = data["manifold"]`
onward: compute `goals_list` from `goal_dag.nodes` when both keys are
present (else the empty list), assign it to `m_data["goals"]`, and build
the `GoalManifold`. -/
def statusFromManifold (m_data : Json) : Except StatusExn SdkGoalManifold :=
  match pyContains "goal_dag" m_data with
  | .error e => .error e
  | .ok cond1 => statusAssignGoals m_data (statusGoalsList m_data cond1)

/-- Embedding of `SentinelClient.status` from the result of
`json.loads(output)` onward (`none` models a `json.JSONDecodeError`, which
the method converts to `SentinelError`): check `"manifold" in data`, raise
`SentinelError` when the key test is negative, and otherwise adapt the
manifold document via `statusFromManifold`. -/
def clientStatus (decoded : Option Json) : Except StatusExn SdkGoalManifold :=
  match decoded with
  | none => .error .sentinelError
  | some data =>
    match pyContains "manifold" data with
    | .error e => .error e
    | .ok false => .error .sentinelError
    | .ok true =>
      match pyIndex data "manifold" with
      | .error e => .error e
      | .ok m_data => statusFromManifold m_data

/-- Whether a run of `status` raised `SentinelError`. -/
def isSentinelErr (r : Except StatusExn SdkGoalManifold) : Bool :=
  match r with
  | .error .sentinelError => true
  | _ => false

/-- Whether a decoded JSON value has a top-level `manifold` key (only
objects have keys). -/
def hasManifoldKeyB (d : Json) : Bool :=
  match d with
  | Json.obj kvs => kvs.any (fun p => p.1 == "manifold")
  | _ => false

/-- The claim's error characterisation of `status`, at one decoded input:
`SentinelError` is raised exactly when the output was not valid JSON or has
no top-level `manifold` key. -/
def c9ErrorClaimAt (decoded : Option Json) : Prop :=
  isSentinelErr (clientStatus decoded) = true
    ↔ (decoded = none ∨ ∃ d, decoded = some d ∧ hasManifoldKeyB d = false)

/-- The source a returned manifold's `goals` must come from, following the
claim's words: the `goal_dag.nodes` value when the `goal_dag` and `nodes`
keys are present, the empty list otherwise. -/
def nodesOrEmpty (kvs : List (String × Json)) : Json :=
  match objLookup kvs "goal_dag" with
  | some (Json.obj gd) =>
    match objLookup gd "nodes" with
    | some v => v
    | none => Json.arr []
  | _ => Json.arr []

/-- The 64-character all-zero placeholder hash of the test fixture
(`"0" * 64`). -/
def zeros64 : String :=
  String.mk (List.replicate 64 (Char.ofNat 48))

/-- `FIXTURE_MANIFOLD` of `test_mcp_full.py` (lines 30-90): a complete
manifold document whose `goal_dag` stores its goals under the key
`goals`, not `nodes`. -/
def fixtureManifoldJson : Json :=
  Json.obj
    [("root_intent", Json.obj
        [("description", Json.str
            "Build a production-ready REST API in Rust with JWT authentication"),
         ("tech_stack", Json.arr
            [Json.str "rust", Json.str "axum", Json.str "sqlx",
             Json.str "postgresql"]),
         ("constraints", Json.arr
            [Json.str "no unsafe code", Json.str "security first",
             Json.str "comprehensive tests"]),
         ("expected_outcomes", Json.arr
            [Json.str "Working REST API", Json.str "JWT authentication",
             Json.str "PostgreSQL integration"]),
         ("target_platform", Json.str "linux"),
         ("languages", Json.arr [Json.str "rust"]),
         ("frameworks", Json.arr [Json.str "axum"]),
         ("infrastructure_map", Json.obj [])]),
     ("goal_dag", Json.obj
        [("goals", Json.obj
            [("00000000-0000-0000-0000-000000000001", Json.obj
                [("id", Json.str "00000000-0000-0000-0000-000000000001"),
                 ("description", Json.str
                    "Setup Rust project with Axum framework"),
                 ("status", Json.str "pending"),
                 ("success_criteria", Json.arr
                    [Json.obj [("file_exists", Json.str "Cargo.toml")]]),
                 ("dependencies", Json.arr []),
                 ("anti_dependencies", Json.arr [])]),
             ("00000000-0000-0000-0000-000000000002", Json.obj
                [("id", Json.str "00000000-0000-0000-0000-000000000002"),
                 ("description", Json.str
                    "Implement JWT authentication middleware"),
                 ("status", Json.str "pending"),
                 ("success_criteria", Json.arr
                    [Json.obj [("file_exists", Json.str "src/auth.rs")]]),
                 ("dependencies", Json.arr
                    [Json.str "00000000-0000-0000-0000-000000000001"]),
                 ("anti_dependencies", Json.arr [])]),
             ("00000000-0000-0000-0000-000000000003", Json.obj
                [("id", Json.str "00000000-0000-0000-0000-000000000003"),
                 ("description", Json.str
                    "Configure PostgreSQL with connection pooling"),
                 ("status", Json.str "pending"),
                 ("success_criteria", Json.arr
                    [Json.obj [("file_exists", Json.str "src/db.rs")]]),
                 ("dependencies", Json.arr
                    [Json.str "00000000-0000-0000-0000-000000000001"]),
                 ("anti_dependencies", Json.arr [])])]),
         ("dependencies", Json.obj
            [("00000000-0000-0000-0000-000000000002", Json.arr
                [Json.str "00000000-0000-0000-0000-000000000001"]),
             ("00000000-0000-0000-0000-000000000003", Json.arr
                [Json.str "00000000-0000-0000-0000-000000000001"])]),
         ("integrity_hash", Json.str zeros64)]),
     ("version", Json.num 1),
     ("integrity_hash", Json.str zeros64),
     ("overrides", Json.arr []),
     ("handover_log", Json.arr []),
     ("version_history", Json.arr []),
     ("sensitivity", Json.num (1/2 : Rat)),
     ("governance", Json.obj
        [("required_dependencies", Json.arr []),
         ("allowed_dependencies", Json.arr
            [Json.str "cargo:axum", Json.str "cargo:sqlx",
             Json.str "cargo:jsonwebtoken"]),
         ("required_frameworks", Json.arr []),
         ("allowed_frameworks", Json.arr [Json.str "framework:axum"]),
         ("allowed_endpoints", Json.obj []),
         ("allowed_ports", Json.arr [Json.num 3000]),
         ("history", Json.arr []),
         ("pending_proposal", Json.null)])]

/-- A CLI `status --json` output carrying the fixture manifold under the
top-level `manifold` key. -/
def fixtureStatusOutput : Json :=
  Json.obj [("manifold", fixtureManifoldJson)]

/-! ## C2 — SecurityScanner (spec §4.3)
The scanner lives in the Rust core, which is not among the visible
sources; it is modelled from the specification.  Risk scores and
thresholds are represented in integer hundredths of the spec's 0..1 scale
(so the cap 1.0 is 100, and `risk_score > 0` coincides in both scales). -/

/-- Modelled from the spec: the `ThreatKind` tags of the fixed battery of
pattern detectors (cloud credential patterns, private-key headers,
hardcoded-password assignments, string-interpolated query construction,
other secret-like high-entropy literals). -/
inductive ThreatKind where
  | cloudCredential
  | privateKey
  | hardcodedPassword
  | sqlInjection
  | highEntropySecret
deriving DecidableEq, Repr

/-- Modelled from the spec: scan verdicts. -/
inductive Verdict where
  | SAFE
  | FLAGGED
  | BLOCKED
deriving DecidableEq, Repr

/-- Scans a character list for a run of at least 20 alphanumeric
characters containing a digit (`len`/`hasDigit` track the current run). -/
def entropyRunAux : List Char → Nat → Bool → Bool
  | [], len, hasDigit => 20 ≤ len && hasDigit
  | c :: cs, len, hasDigit =>
    if c.isAlphanum then entropyRunAux cs (len + 1) (hasDigit || c.isDigit)
    else (20 ≤ len && hasDigit) || entropyRunAux cs 0 false

/-- A secret-like high-entropy literal: a long (≥ 20) alphanumeric token
mixing in at least one digit. -/
def hasHighEntropyToken (s : String) : Bool :=
  entropyRunAux s.data 0 false

/-- Modelled from the spec: the pattern matched by each detector of the
battery — access-key prefixes (AWS `AKIA`), private-key headers,
hardcoded-password assignments, string-interpolated SQL construction, and
secret-like high-entropy literals. -/
def detectorMatches (content : String) : ThreatKind → Bool
  | ThreatKind.cloudCredential => containsSub "AKIA" content
  | ThreatKind.privateKey => containsSub "PRIVATE KEY-----" content
  | ThreatKind.hardcodedPassword =>
      containsSub "password = \"" content || containsSub "password=\"" content
  | ThreatKind.sqlInjection =>
      containsSub "format!(" content
        && (containsSub "SELECT" content || containsSub "INSERT" content
            || containsSub "UPDATE" content || containsSub "DELETE" content)
  | ThreatKind.highEntropySecret => hasHighEntropyToken content

/-- Modelled from the spec: the weighted risk increment each detector
contributes, in hundredths. -/
def detectorWeight : ThreatKind → Nat
  | ThreatKind.cloudCredential => 50
  | ThreatKind.privateKey => 60
  | ThreatKind.hardcodedPassword => 40
  | ThreatKind.sqlInjection => 35
  | ThreatKind.highEntropySecret => 30

/-- The fixed battery of detectors the scanner runs. -/
def detectorBattery : List ThreatKind :=
  [ThreatKind.cloudCredential, ThreatKind.privateKey,
   ThreatKind.hardcodedPassword, ThreatKind.sqlInjection,
   ThreatKind.highEntropySecret]

/-- Modelled from the spec: the configurable warn threshold of the
decision policy (0.25). -/
def warnThreshold : Nat := 25

/-- Modelled from the spec: the configurable block threshold of the
decision policy (0.75). -/
def blockThreshold : Nat := 75

/-- A scan outcome: triggered threats, the capped risk score (hundredths),
and the verdict. -/
structure ScanResult where
  threats : List ThreatKind
  risk_score : Nat
  verdict : Verdict
deriving DecidableEq, Repr

/-- Caps a summed risk at `1.0` (= 100 hundredths). -/
def riskCap (s : Nat) : Nat :=
  if 100 < s then 100 else s

/-- Modelled from the spec: `scan(content)` runs the battery, sums the
triggered detector weights capped at 1.0, and applies the decision policy
(`risk_score` above the block threshold ⇒ `BLOCKED`, above the warn
threshold ⇒ `FLAGGED`, otherwise `SAFE`). -/
def scan (content : String) : ScanResult :=
  let threats := detectorBattery.filter (fun k => detectorMatches content k)
  let risk := riskCap ((threats.map detectorWeight).sum)
  { threats := threats
    risk_score := risk
    verdict :=
      if blockThreshold < risk then Verdict.BLOCKED
      else if warnThreshold < risk then Verdict.FLAGGED
      else Verdict.SAFE }

/-! ## C4 / C5 — GovernanceEngine (spec §4.4)
The governance engine lives in the Rust core, which is not among the
visible sources; it is modelled from the specification. -/

/-- Modelled from the spec: the declared project intent (§3). -/
structure Intent where
  description : String
  constraints : List String
  expected_outcomes : List String
  target_platform : Option String
  languages : List String
  frameworks : List String
  infrastructure_map : List (String × String)
deriving DecidableEq, Repr

/-- Modelled from the spec: a candidate policy delta plus the
`lock_required` flag. -/
structure Proposal where
  add_dependencies : List String
  add_frameworks : List String
  add_ports : List Nat
  add_endpoints : List (String × List String)
  lock_required : Bool
deriving DecidableEq, Repr

/-- Modelled from the spec: a history record of an approved or rejected
proposal. -/
structure ProposalRecord where
  accepted : Bool
  note : String
  timestamp : Nat
deriving DecidableEq, Repr

/-- Modelled from the spec: the governance policy store with its
single-slot pending proposal. -/
structure GovernancePolicy where
  required_dependencies : List String
  allowed_dependencies : List String
  required_frameworks : List String
  allowed_frameworks : List String
  allowed_endpoints : List (String × List String)
  allowed_ports : List Nat
  history : List ProposalRecord
  pending_proposal : Option Proposal
deriving DecidableEq, Repr

/-- Modelled from the spec: the baseline proposal `seed` computes from the
manifold's declared `languages`/`frameworks`/observed infrastructure. -/
def baselineProposal (intent : Intent) (lock_required : Bool) : Proposal :=
  { add_dependencies := intent.languages
    add_frameworks := intent.frameworks
    add_ports := []
    add_endpoints := intent.infrastructure_map.map (fun p => (p.1, [p.2]))
    lock_required := lock_required }

/-- The result part of a `governance_seed` call. -/
inductive SeedOutcome where
  | preview (p : Proposal)
  | applied (p : Proposal)
  | alreadyPending
deriving DecidableEq, Repr

/-- Modelled from the spec: `seed(apply, lock_required)` computes the
baseline proposal; with `apply = false` it returns a preview without
mutating `pending_proposal`; with `apply = true` it sets
`pending_proposal`, failing with `ProposalAlreadyPending` when one exists
and `lock_required` was requested. -/
def governance_seed (intent : Intent) (g : GovernancePolicy)
    (apply lock_required : Bool) : SeedOutcome × GovernancePolicy :=
  let p := baselineProposal intent lock_required
  if apply then
    match g.pending_proposal with
    | some _ =>
      if lock_required then (SeedOutcome.alreadyPending, g)
      else (SeedOutcome.applied p, { g with pending_proposal := some p })
    | none => (SeedOutcome.applied p, { g with pending_proposal := some p })
  else (SeedOutcome.preview p, g)

/-- Modelled from the spec: the pending-proposal count `status()` reports
(the slot holds at most one proposal). -/
def pendingCount (g : GovernancePolicy) : Nat :=
  match g.pending_proposal with
  | some _ => 1
  | none => 0

/-- Modelled from the spec: `status()` returns the current policy plus
whether a proposal is pending. -/
def governance_status (g : GovernancePolicy) : GovernancePolicy × Nat :=
  (g, pendingCount g)

/-- The acknowledgment of `approve`/`reject`: either the proposal was
acted on, or there was nothing pending and the call answers with a no-op
success. -/
inductive GovAck where
  | acted
  | noopAck
deriving DecidableEq, Repr

/-- Modelled from the spec: `approve(note)` merges the pending delta into
the `allowed_*` sets, appends an accepted `ProposalRecord`, and clears the
slot; with no pending proposal it returns a no-op acknowledgment. -/
def governance_approve (g : GovernancePolicy) (note : String) (now : Nat) :
    GovAck × GovernancePolicy :=
  match g.pending_proposal with
  | none => (GovAck.noopAck, g)
  | some p =>
    (GovAck.acted,
     { g with
        allowed_dependencies := g.allowed_dependencies ++ p.add_dependencies
        allowed_frameworks := g.allowed_frameworks ++ p.add_frameworks
        allowed_ports := g.allowed_ports ++ p.add_ports
        allowed_endpoints := g.allowed_endpoints ++ p.add_endpoints
        history := g.history
          ++ [{ accepted := true, note := note, timestamp := now }]
        pending_proposal := none })

/-- Modelled from the spec: `reject(reason)` appends a rejected
`ProposalRecord` and clears the slot; with no pending proposal it returns
a no-op acknowledgment. -/
def governance_reject (g : GovernancePolicy) (reason : String) (now : Nat) :
    GovAck × GovernancePolicy :=
  match g.pending_proposal with
  | none => (GovAck.noopAck, g)
  | some _ =>
    (GovAck.acted,
     { g with
        history := g.history
          ++ [{ accepted := false, note := reason, timestamp := now }]
        pending_proposal := none })

/-! ## Core goal model (spec §3), shared by the alignment engine, the goal
graph and the manifold store.  All float-valued quantities of the spec
(`value_to_root`, `sensitivity`, priorities: 0..1) are represented in
integer hundredths. -/

/-- Modelled from the spec: the goal status state machine's states. -/
inductive GoalStatus where
  | Pending
  | Ready
  | InProgress
  | Validating
  | Completed
  | Blocked
  | Failed
  | Deprecated
deriving DecidableEq, Repr

/-- `Completed`, `Failed`, `Deprecated` are terminal — no outgoing
transitions. -/
def GoalStatus.isTerminal : GoalStatus → Bool
  | GoalStatus.Completed => true
  | GoalStatus.Failed => true
  | GoalStatus.Deprecated => true
  | _ => false

/-- Modelled from the spec: a tagged success criterion, evaluated
externally; the core only stores and exposes them. -/
inductive SuccessCriterion where
  | file_exists (path : String)
  | api_available (endpoint : String) (method : String)
  | tests_passing (suite : String) (min_coverage : Nat)
deriving DecidableEq, Repr

/-- Modelled from the spec: the complexity estimate distribution
(`mean`/`std_dev`/`low`/`high` bounds, in hundredths). -/
structure ProbabilityDistribution where
  mean : Nat
  std_dev : Nat
  low : Nat
  high : Nat
deriving DecidableEq, Repr

/-- Modelled from the spec: goal metadata (`tags`, `notes`, `priority`). -/
structure GoalMetadata where
  tags : List String
  notes : String
  priority : Nat
deriving DecidableEq, Repr

/-- Modelled from the spec: a goal of the manifold.  Ids are stable
naturals; `value_to_root` is the 0..1 contribution weight in
hundredths. -/
structure Goal where
  id : Nat
  description : String
  status : GoalStatus
  success_criteria : List SuccessCriterion
  dependencies : List Nat
  anti_dependencies : List Nat
  complexity_estimate : ProbabilityDistribution
  value_to_root : Nat
  parent_id : Option Nat
  metadata : GoalMetadata
  created_at : Nat
  updated_at : Nat
deriving DecidableEq, Repr

/-- Modelled from the spec: the goal graph — an arena of goals indexed by
stable id with an integrity hash.  The denormalized adjacency map of the
source must equal the union of each goal's `dependencies`, so it is
represented here by that union (the `depsOf` accessor below). -/
structure GoalGraph where
  goals : List Goal
  integrity_hash : Nat
deriving DecidableEq, Repr

/-! ## C6 / C7 — AlignmentEngine (spec §4.2)
The alignment engine lives in the Rust core, which is not among the
visible sources; it is modelled from the specification.  Scores use the
spec's 0..100 scale; confidence is in hundredths of the spec's 0..1. -/

/-- Modelled from the spec: invariant severities. -/
inductive Severity where
  | Warning
  | Error
  | Critical
deriving DecidableEq, Repr

/-- Modelled from the spec: the tagged predicate conditions an invariant
may impose over manifold state. -/
inductive InvariantPred where
  | maxGoals (n : Nat)
  | maxSensitivity (s : Nat)
  | rootDescriptionNonempty
  | never
deriving DecidableEq, Repr

/-- Modelled from the spec: a hard constraint with a severity, checked on
every mutation. -/
structure Invariant where
  id : Nat
  description : String
  severity : Severity
  predicate : InvariantPred
deriving DecidableEq, Repr

/-- Modelled from the spec: an append-only continuity record. -/
structure HandoverEntry where
  goal_id : Nat
  content : String
  warnings : List String
  timestamp : Nat
deriving DecidableEq, Repr

/-- Modelled from the spec: a version record appended on every mutation. -/
structure VersionRecord where
  version : Nat
  timestamp : Nat
  hash : Nat
  change_description : String
deriving DecidableEq, Repr

/-- Modelled from the spec: the aggregate root.  `sensitivity` is in
hundredths of the spec's 0..1 float. -/
structure GoalManifold where
  root_intent : Intent
  goal_dag : GoalGraph
  invariants : List Invariant
  governance : GovernancePolicy
  overrides : List String
  handover_log : List HandoverEntry
  version_history : List VersionRecord
  sensitivity : Nat
  version : Nat
  integrity_hash : Nat
deriving DecidableEq, Repr

/-- Evaluation of an invariant's tagged predicate against manifold
state. -/
def evalPred (p : InvariantPred) (m : GoalManifold) : Bool :=
  match p with
  | InvariantPred.maxGoals n => m.goal_dag.goals.length ≤ n
  | InvariantPred.maxSensitivity s => m.sensitivity ≤ s
  | InvariantPred.rootDescriptionNonempty => m.root_intent.description ≠ ""
  | InvariantPred.never => false

/-- Lowercase alphanumeric tokens of a string (`acc` holds the reversed
current token). -/
def tokenizeAux : List Char → List Char → List String
  | [], acc => if acc.isEmpty then [] else [String.mk acc.reverse]
  | c :: cs, acc =>
    if c.isAlphanum then tokenizeAux cs (c.toLower :: acc)
    else if acc.isEmpty then tokenizeAux cs []
    else String.mk acc.reverse :: tokenizeAux cs []

/-- The lexical tokens of a text, lowercased and split on
non-alphanumerics. -/
def tokenize (s : String) : List String :=
  tokenizeAux s.data []

/-- Modelled from the spec: the configurable low-alignment threshold an
action matching a destructive pattern must fall below. -/
def lowAlignmentThreshold : Nat := 40

/-- Modelled from the spec: the configured minimum score below which a
low-alignment violation is emitted. -/
def minScoreThreshold : Nat := 40

/-- Modelled from the spec: the floor of the confidence value
(hundredths). -/
def confidenceFloor : Nat := 10

/-- Modelled from the spec: known-destructive patterns (each pattern is a
set of tokens that must all occur), e.g. "delete tests", "remove
validation". -/
def destructivePatterns : List (List String) :=
  [["delete", "test"], ["delete", "tests"],
   ["remove", "validation"], ["disable", "security"]]

/-- A pattern matches when all its tokens occur among the text tokens. -/
def matchesPattern (toks : List String) (pat : List String) : Bool :=
  pat.all (fun w => toks.contains w)

/-- An action description matching a known-destructive pattern. -/
def isDestructive (text : String) : Bool :=
  destructivePatterns.any (matchesPattern (tokenize text))

/-- How many reference tokens occur in the candidate's tokens (the
lexical overlap measure). -/
def overlapCount (textToks : List String) (ref : List String) : Nat :=
  (ref.filter (fun w => textToks.contains w)).length

/-- Clamps a hundredths value into 0..100. -/
def cap100 (v : Nat) : Nat :=
  if 100 < v then 100 else v

/-- The non-terminal goals of a manifold (terminal goals do not
participate in scoring). -/
def activeGoals (m : GoalManifold) : List Goal :=
  m.goal_dag.goals.filter (fun g => !g.status.isTerminal)

/-- Total weighted reference units: the intent description and each
constraint weigh 1.00 (= 100) per token; each non-terminal goal weighs its
clamped `value_to_root` per token. -/
def refUnits (m : GoalManifold) : Nat :=
  100 * (tokenize m.root_intent.description).length
    + 100 * (m.root_intent.constraints.map (fun c => (tokenize c).length)).sum
    + ((activeGoals m).map
        (fun g => cap100 g.value_to_root * (tokenize g.description).length)).sum

/-- Weighted units matched by the candidate text, with the same weights as
`refUnits`. -/
def matchUnits (m : GoalManifold) (text : String) : Nat :=
  let t := tokenize text
  100 * overlapCount t (tokenize m.root_intent.description)
    + 100 * (m.root_intent.constraints.map
        (fun c => overlapCount t (tokenize c))).sum
    + ((activeGoals m).map
        (fun g => cap100 g.value_to_root * overlapCount t (tokenize g.description))).sum

/-- Modelled from the spec: the normalized weighted overlap 0..100, before
the destructive penalty. -/
def baseScore (m : GoalManifold) (text : String) : Nat :=
  if refUnits m = 0 then 0
  else cap100 (100 * matchUnits m text / refUnits m)

/-- Modelled from the spec: the alignment score — the normalized weighted
overlap, penalized to a tenth when the action matches a known-destructive
pattern (forcing it below the low-alignment threshold). -/
def alignScore (m : GoalManifold) (text : String) : Nat :=
  if isDestructive text then baseScore m text / 10 else baseScore m text

/-- Modelled from the spec: confidence reflects how much of the manifold
(goal count, constraint count) participated in the score; with zero goals
and zero constraints it sits at its floor.  In hundredths. -/
def alignConfidence (m : GoalManifold) : Nat :=
  let participation := m.goal_dag.goals.length
    + m.root_intent.constraints.length
  confidenceFloor + (if 10 ≤ participation then 90 else 9 * participation)

/-- An emitted alignment violation. -/
structure AlignmentViolation where
  id : Nat
  description : String
  severity : Severity
deriving DecidableEq, Repr

/-- The derived alignment result: `score` 0..100, `confidence` in
hundredths of 0..1, plus violations. -/
structure AlignmentScore where
  score : Nat
  confidence : Nat
  violations : List AlignmentViolation
deriving DecidableEq, Repr

/-- Modelled from the spec: violations are emitted when a `Critical`
invariant predicate evaluates false against the state, or when the
computed score falls below the configured minimum. -/
def alignViolations (m : GoalManifold) (text : String) : List AlignmentViolation :=
  (m.invariants.filter
      (fun i => i.severity == Severity.Critical && !(evalPred i.predicate m))).map
      (fun i => { id := i.id, description := i.description,
                  severity := i.severity })
    ++ (if alignScore m text < minScoreThreshold then
          [{ id := 0, description := "alignment below configured minimum",
             severity := Severity.Error }]
        else [])

/-- Modelled from the spec: `get_alignment`/`score(manifold,
candidate_text)` — the derived alignment view; never mutates state. -/
def get_alignment (m : GoalManifold) (text : String) : AlignmentScore :=
  { score := alignScore m text
    confidence := alignConfidence m
    violations := alignViolations m text }

/-- The C6 scenario manifold: root intent "JWT REST API" with a single
goal "Implement JWT authentication middleware" of `value_to_root = 0.25`
(= 25 hundredths). -/
def c6Manifold : GoalManifold :=
  { root_intent :=
      { description := "JWT REST API", constraints := [],
        expected_outcomes := [], target_platform := none,
        languages := ["rust"], frameworks := ["axum"],
        infrastructure_map := [] }
    goal_dag :=
      { goals :=
          [{ id := 1,
             description := "Implement JWT authentication middleware",
             status := GoalStatus.Pending,
             success_criteria := [],
             dependencies := [], anti_dependencies := [],
             complexity_estimate :=
               { mean := 50, std_dev := 10, low := 20, high := 80 },
             value_to_root := 25, parent_id := none,
             metadata := { tags := [], notes := "", priority := 50 },
             created_at := 0, updated_at := 0 }],
        integrity_hash := 0 }
    invariants := []
    governance :=
      { required_dependencies := [], allowed_dependencies := [],
        required_frameworks := [], allowed_frameworks := [],
        allowed_endpoints := [], allowed_ports := [], history := [],
        pending_proposal := none }
    overrides := [], handover_log := [], version_history := [],
    sensitivity := 50, version := 1, integrity_hash := 0 }

/-- A manifold with no goals and no constraints (confidence floor
scenario). -/
def emptyManifold : GoalManifold :=
  { root_intent :=
      { description := "Bootstrap", constraints := [],
        expected_outcomes := [], target_platform := none,
        languages := [], frameworks := [], infrastructure_map := [] }
    goal_dag := { goals := [], integrity_hash := 0 }
    invariants := []
    governance :=
      { required_dependencies := [], allowed_dependencies := [],
        required_frameworks := [], allowed_frameworks := [],
        allowed_endpoints := [], allowed_ports := [], history := [],
        pending_proposal := none }
    overrides := [], handover_log := [], version_history := [],
    sensitivity := 50, version := 1, integrity_hash := 0 }

/-! ## C1 — GoalGraph operations (spec §4.1, §9)
The goal graph lives in the Rust core, which is not among the visible
sources; it is modelled from the specification: an arena of goals indexed
by stable id, validated on every insert via topological-sort-based cycle
detection. -/

/-- The goal ids present in the graph. -/
def gIds (g : GoalGraph) : List Nat :=
  g.goals.map (fun go => go.id)

/-- The goal stored under an id. -/
def findGoal (g : GoalGraph) (n : Nat) : Option Goal :=
  g.goals.find? (fun go => go.id == n)

/-- Whether an id is present in the graph. -/
def presentB (g : GoalGraph) (n : Nat) : Bool :=
  decide (n ∈ gIds g)

/-- The adjacency of an id: its goal's `dependencies` (the spec's
denormalized adjacency map must equal this union). -/
def depsOf (g : GoalGraph) (n : Nat) : List Nat :=
  match findGoal g n with
  | some go => go.dependencies
  | none => []

/-- Whether the dependency under an id is already `Completed`. -/
def depCompleted (g : GoalGraph) (d : Nat) : Bool :=
  match findGoal g d with
  | some go => go.status == GoalStatus.Completed
  | none => false

/-- One round of Kahn peeling: the ids not yet removed whose present
dependencies are all removed. -/
def eligibleIds (g : GoalGraph) (removed : List Nat) : List Nat :=
  (gIds g).filter (fun n =>
    decide (n ∉ removed)
      && (depsOf g n).all
          (fun d => decide (d ∉ gIds g) || decide (d ∈ removed)))

/-- Iterated Kahn peeling: after `k` rounds, the list of removed ids. -/
def peel (g : GoalGraph) : Nat → List Nat
  | 0 => []
  | k + 1 => peel g k ++ eligibleIds g (peel g k)

/-- The topological-sort-based cycle check of the spec: the graph is
acyclic when every id is peeled within `|ids|` rounds. -/
def acyclicB (g : GoalGraph) : Bool :=
  (gIds g).all (fun n => decide (n ∈ peel g (gIds g).length))

/-- Cycle detection used on every insert. -/
def hasCycleB (g : GoalGraph) : Bool :=
  !acyclicB g

/-- A dependency edge of the relation restricted to ids present in the
graph. -/
def edgeB (g : GoalGraph) (a b : Nat) : Bool :=
  presentB g a && presentB g b && decide (b ∈ depsOf g a)

/-- A non-empty path of dependency edges. -/
inductive DepPath (g : GoalGraph) : Nat → Nat → Prop where
  | single (a b : Nat) (h : edgeB g a b = true) : DepPath g a b
  | cons (a b c : Nat) (h : edgeB g a b = true) (p : DepPath g b c) :
      DepPath g a c

/-- Semantic acyclicity: no id reaches itself through dependency edges
(the dependency relation restricted to present ids has no cycle). -/
def Acyclic (g : GoalGraph) : Prop :=
  ∀ n, ¬ DepPath g n n

/-- Rolling integrity hash of the arena, over ids and adjacency. -/
def graphHash (goals : List Goal) : Nat :=
  goals.foldl
    (fun h go => (h * 31 + go.id + go.dependencies.sum) % (2 ^ 64)) 5381

/-- Insert-or-replace of a goal by id in the arena (ids are unique and
stable; re-adding an id replaces its entry in place). -/
def upsertGoal (goals : List Goal) (goal : Goal) : List Goal :=
  if goals.any (fun go => go.id == goal.id) then
    goals.map (fun go => cond (go.id == goal.id) goal go)
  else goals ++ [goal]

/-- Raw arena insert plus hash refresh (no validation). -/
def insertGoalRaw (g : GoalGraph) (goal : Goal) : GoalGraph :=
  let gs := upsertGoal g.goals goal
  { goals := gs, integrity_hash := graphHash gs }

/-- Modelled from the spec: errors of the graph operations. -/
inductive GraphError where
  | CyclicDependency
  | UnknownDependency
  | GoalNotFound
  | AlreadyTerminal
deriving DecidableEq, Repr

/-- The unvalidated insert underlying `add_goal`: store the goal with the
given dependency edges; status is `Pending` unless all dependencies are
already `Completed`, in which case it is `Ready`. -/
def rawInsert (g : GoalGraph) (goal : Goal) (deps : List Nat) : GoalGraph :=
  insertGoalRaw g
    { goal with
        dependencies := deps
        status :=
          if deps.all (fun d => depCompleted g d) then GoalStatus.Ready
          else GoalStatus.Pending }

/-- Modelled from the spec: `add_goal(goal, dependencies)` — fails with
`UnknownDependency` if any referenced id is absent, inserts the goal, and
fails with `CyclicDependency` (leaving the graph unchanged) if the
inserted edges create a cycle under the topological-sort check. -/
def add_goal (g : GoalGraph) (goal : Goal) (deps : List Nat) :
    Except GraphError GoalGraph :=
  if deps.any (fun d => !presentB g d) then .error .UnknownDependency
  else
    let g2 := rawInsert g goal deps
    if hasCycleB g2 then .error .CyclicDependency else .ok g2

/-- The not-yet-`Completed` dependencies of a goal. -/
def unmetDeps (g : GoalGraph) (n : Nat) : List Nat :=
  (depsOf g n).filter (fun d => !depCompleted g d)

/-- A decomposition child: its dependencies include the original goal's
unmet dependencies and its `parent_id` is the original id. -/
def childFromSpec (parent : Nat) (deps : List Nat) (c : Goal) : Goal :=
  { c with
      dependencies := deps
      parent_id := some parent
      status := GoalStatus.Pending }

/-- Modelled from the spec: `decompose_goal(goal_id)` — fails with
`GoalNotFound` if the id is absent and `AlreadyTerminal` if the goal is
already terminal; otherwise inserts the child goals (each carrying the
original's unmet dependencies and `parent_id`), re-running the cycle
validation applied on every insert. -/
def decompose_goal (g : GoalGraph) (goal_id : Nat) (children : List Goal) :
    Except GraphError GoalGraph :=
  match findGoal g goal_id with
  | none => .error .GoalNotFound
  | some parent =>
    if parent.status.isTerminal then .error .AlreadyTerminal
    else
      let deps := unmetDeps g goal_id
      let g2 := children.foldl
        (fun acc c => insertGoalRaw acc (childFromSpec goal_id deps c)) g
      if hasCycleB g2 then .error .CyclicDependency else .ok g2

/-- A graph mutation. -/
inductive GraphOp where
  | add (goal : Goal) (deps : List Nat)
  | decompose (goal_id : Nat) (children : List Goal)

/-- Apply one operation, surfacing its error. -/
def stepOp (g : GoalGraph) : GraphOp → Except GraphError GoalGraph
  | GraphOp.add goal deps => add_goal g goal deps
  | GraphOp.decompose goal_id children => decompose_goal g goal_id children

/-- Apply one operation; a failing operation leaves the graph unchanged. -/
def runOp (g : GoalGraph) (op : GraphOp) : GoalGraph :=
  match stepOp g op with
  | .ok g2 => g2
  | .error _ => g

/-- Apply a sequence of operations from a starting graph. -/
def runOps (ops : List GraphOp) (g : GoalGraph) : GoalGraph :=
  ops.foldl runOp g

/-- The freshly created goal graph. -/
def freshGraph : GoalGraph :=
  { goals := [], integrity_hash := graphHash [] }

/-- A minimal goal literal used in concrete instances. -/
def mkGoal (i : Nat) (deps : List Nat) : Goal :=
  { id := i, description := "goal", status := GoalStatus.Pending,
    success_criteria := [], dependencies := deps, anti_dependencies := [],
    complexity_estimate := { mean := 0, std_dev := 0, low := 0, high := 0 },
    value_to_root := 0, parent_id := none,
    metadata := { tags := [], notes := "", priority := 0 },
    created_at := 0, updated_at := 0 }

/-! ## C3 — ManifoldStore & versioning (spec §4.6, §7)
The store lives in the Rust core, which is not among the visible sources;
it is modelled from the specification. -/

/-- Length-prefixed canonical encoding of a string. -/
def encStr (s : String) : List Nat :=
  s.length :: s.data.map Char.toNat

/-- Length-prefixed canonical encoding of a list of naturals. -/
def encNats (l : List Nat) : List Nat :=
  l.length :: l

/-- Length-prefixed canonical encoding of a list of strings. -/
def encStrs (l : List String) : List Nat :=
  l.length :: (l.map encStr).flatten

/-- Canonical code of a goal status. -/
def statusCode : GoalStatus → Nat
  | GoalStatus.Pending => 0
  | GoalStatus.Ready => 1
  | GoalStatus.InProgress => 2
  | GoalStatus.Validating => 3
  | GoalStatus.Completed => 4
  | GoalStatus.Blocked => 5
  | GoalStatus.Failed => 6
  | GoalStatus.Deprecated => 7

/-- Canonical code of a severity. -/
def severityCode : Severity → Nat
  | Severity.Warning => 0
  | Severity.Error => 1
  | Severity.Critical => 2

/-- Canonical encoding of a success criterion. -/
def encCriterion : SuccessCriterion → List Nat
  | SuccessCriterion.file_exists path => 0 :: encStr path
  | SuccessCriterion.api_available endpoint method =>
      1 :: encStr endpoint ++ encStr method
  | SuccessCriterion.tests_passing suite cov => 2 :: encStr suite ++ [cov]

/-- Canonical encoding of an invariant predicate. -/
def encPred : InvariantPred → List Nat
  | InvariantPred.maxGoals n => [0, n]
  | InvariantPred.maxSensitivity s => [1, s]
  | InvariantPred.rootDescriptionNonempty => [2]
  | InvariantPred.never => [3]

/-- Canonical encoding of an optional id. -/
def encOptNat : Option Nat → List Nat
  | none => [0]
  | some n => [1, n]

/-- Canonical encoding of a goal. -/
def encGoal (g : Goal) : List Nat :=
  g.id :: encStr g.description ++ [statusCode g.status]
    ++ (g.success_criteria.map encCriterion).flatten
    ++ encNats g.dependencies ++ encNats g.anti_dependencies
    ++ [g.complexity_estimate.mean, g.complexity_estimate.std_dev,
        g.complexity_estimate.low, g.complexity_estimate.high,
        g.value_to_root]
    ++ encOptNat g.parent_id
    ++ encStrs g.metadata.tags ++ encStr g.metadata.notes
    ++ [g.metadata.priority, g.created_at, g.updated_at]

/-- Canonical encoding of the intent. -/
def encIntent (i : Intent) : List Nat :=
  encStr i.description ++ encStrs i.constraints ++ encStrs i.expected_outcomes
    ++ (match i.target_platform with
        | none => [0]
        | some p => 1 :: encStr p)
    ++ encStrs i.languages ++ encStrs i.frameworks
    ++ (i.infrastructure_map.map (fun p => encStr p.1 ++ encStr p.2)).flatten

/-- Canonical encoding of a proposal. -/
def encProposal (p : Proposal) : List Nat :=
  encStrs p.add_dependencies ++ encStrs p.add_frameworks
    ++ encNats p.add_ports
    ++ (p.add_endpoints.map (fun e => encStr e.1 ++ encStrs e.2)).flatten
    ++ [if p.lock_required then 1 else 0]

/-- Canonical encoding of the governance policy. -/
def encGovernance (g : GovernancePolicy) : List Nat :=
  encStrs g.required_dependencies ++ encStrs g.allowed_dependencies
    ++ encStrs g.required_frameworks ++ encStrs g.allowed_frameworks
    ++ (g.allowed_endpoints.map (fun e => encStr e.1 ++ encStrs e.2)).flatten
    ++ encNats g.allowed_ports
    ++ (g.history.map (fun r =>
          (if r.accepted then 1 else 0) :: encStr r.note ++ [r.timestamp])).flatten
    ++ (match g.pending_proposal with
        | none => [0]
        | some p => 1 :: encProposal p)

/-- Canonical encoding of the whole manifold state, covering every field
except `integrity_hash` itself (which is recomputed over this encoding). -/
def canonicalEncode (m : GoalManifold) : List Nat :=
  encIntent m.root_intent
    ++ (m.goal_dag.goals.map encGoal).flatten ++ [m.goal_dag.integrity_hash]
    ++ (m.invariants.map (fun i =>
          i.id :: encStr i.description
            ++ [severityCode i.severity] ++ encPred i.predicate)).flatten
    ++ encGovernance m.governance
    ++ encStrs m.overrides
    ++ (m.handover_log.map (fun e =>
          e.goal_id :: encStr e.content ++ encStrs e.warnings
            ++ [e.timestamp])).flatten
    ++ (m.version_history.map (fun r =>
          [r.version, r.timestamp, r.hash]
            ++ encStr r.change_description)).flatten
    ++ [m.sensitivity, m.version]

/-- Rolling 64-bit hash chain of a canonical encoding. -/
def hashChain (l : List Nat) : Nat :=
  l.foldl (fun h x => (h * 31 + x) % (2 ^ 64)) 5381

/-- The integrity hash of a manifold: the hash chain of its canonical
serialization. -/
def manifoldHash (m : GoalManifold) : Nat :=
  hashChain (canonicalEncode m)

/-- A mutating operation across the engines, all funnelled through the
store's single choke point. -/
inductive Mutation where
  | addGoal (goal : Goal) (deps : List Nat)
  | decomposeGoal (goal_id : Nat) (children : List Goal)
  | govSeed (apply lock_required : Bool)
  | govApprove (note : String)
  | govReject (reason : String)
  | recordHandover (goal_id : Nat) (content : String) (warnings : List String)

/-- Errors a mutation can surface before the invariant gate. -/
inductive MutationError where
  | graph (e : GraphError)
  | proposalAlreadyPending
  | invariantCritical
deriving DecidableEq, Repr

/-- Apply one engine mutation to the manifold (no versioning yet). -/
def applyMutation (m : GoalManifold) (mu : Mutation) (now : Nat) :
    Except MutationError GoalManifold :=
  match mu with
  | Mutation.addGoal goal deps =>
    match add_goal m.goal_dag goal deps with
    | .error e => .error (.graph e)
    | .ok dag2 => .ok { m with goal_dag := dag2 }
  | Mutation.decomposeGoal goal_id children =>
    match decompose_goal m.goal_dag goal_id children with
    | .error e => .error (.graph e)
    | .ok dag2 => .ok { m with goal_dag := dag2 }
  | Mutation.govSeed apply lock =>
    match governance_seed m.root_intent m.governance apply lock with
    | (SeedOutcome.alreadyPending, _) => .error .proposalAlreadyPending
    | (_, g2) => .ok { m with governance := g2 }
  | Mutation.govApprove note =>
    .ok { m with governance := (governance_approve m.governance note now).2 }
  | Mutation.govReject reason =>
    .ok { m with governance := (governance_reject m.governance reason now).2 }
  | Mutation.recordHandover goal_id content warnings =>
    .ok { m with handover_log := m.handover_log
            ++ [{ goal_id := goal_id, content := content,
                  warnings := warnings, timestamp := now }] }

/-- Whether some `Critical` invariant is violated by a state. -/
def criticalViolated (m : GoalManifold) : Bool :=
  m.invariants.any
    (fun i => i.severity == Severity.Critical && !(evalPred i.predicate m))

/-- Modelled from the spec: the single mutation choke point — apply the
mutation, validate all `Critical` invariants against the new state (fail
closed), increment `version`, recompute `integrity_hash` over the
canonical encoding, append a `VersionRecord`. -/
def commitMutation (m : GoalManifold) (mu : Mutation) (desc : String)
    (now : Nat) : Except MutationError GoalManifold :=
  match applyMutation m mu now with
  | .error e => .error e
  | .ok m1 =>
    if criticalViolated m1 then .error .invariantCritical
    else
      let m2 := { m1 with version := m.version + 1 }
      let h := manifoldHash { m2 with integrity_hash := 0 }
      .ok { m2 with
              integrity_hash := h
              version_history := m2.version_history
                ++ [{ version := m2.version, timestamp := now, hash := h,
                      change_description := desc }] }

/-- The persisted state after a mutation attempt: the committed state on
success, the unchanged pre-mutation state on abort. -/
def persistMutation (m : GoalManifold) (mu : Mutation) (desc : String)
    (now : Nat) : GoalManifold :=
  match commitMutation m mu desc now with
  | .ok m2 => m2
  | .error _ => m

/-- A manifold carrying an unsatisfiable `Critical` invariant. -/
def criticalManifold : GoalManifold :=
  { emptyManifold with
      invariants :=
        [{ id := 1, description := "always violated",
           severity := Severity.Critical,
           predicate := InvariantPred.never }] }

/-! ## Theorems -/

/-- C10 (counterexample): with content `"a b"` (two words) and
`token_count = 1`, the usage object has `prompt_tokens = 0`,
`completion_tokens = 2` but `total_tokens = 1`, so the sum identity of the
claim fails. -/
theorem c10_usage_counterexample :
    ¬ usageAdditive "a b" 1 := by decide

/-- C10 (amended): `completion_tokens` always equals the whitespace word
count of the content, and `prompt_tokens + completion_tokens = total_tokens`
holds whenever `token_count` is zero or at least the word count of the
content (the only regime the proxy can produce, since the CLI token total
counts the completion as well); for `0 < token_count <` word count the
total is `token_count` while the sum is the word count. -/
theorem c10_usage_amended (content : String) (token_count : Nat)
    (h : token_count = 0 ∨ pySplitCount content ≤ token_count) :
    (makeOpenaiUsage content token_count).completion_tokens = pySplitCount content
      ∧ usageAdditive content token_count := by
  refine ⟨rfl, ?_⟩
  unfold usageAdditive makeOpenaiUsage
  simp only
  split <;> omega

/-- Witness for C10 (amended) at content `"alpha beta"` and
`token_count = 7`. -/
theorem c10_usage_amended_witness :
    (makeOpenaiUsage "alpha beta" 7).completion_tokens = pySplitCount "alpha beta"
      ∧ usageAdditive "alpha beta" 7 :=
  c10_usage_amended "alpha beta" 7 (Or.inr (by decide))

/-- C8: the class's own comment says the validator "catches the Rust enum
serialization format" — `{ "VariantName": { ... } }` *or just
`"VariantName"`* — "and stores it safely", and the claim states that
construction succeeds for every input shape with the raw input stored
unchanged under `content`.  The code does store any dict input unchanged,
but a bare string (the Rust unit-variant serialization the comment names)
is rejected by pydantic's dict enforcement before the permissive validator
runs, so construction raises. -/
theorem c8_predicate_string_rejected :
    predicateValidate (Json.str "file_exists") = .error .dictError
      ∧ (∀ kvs : List (String × Json),
          predicateValidate (Json.obj kvs) = .ok { content := Json.obj kvs }) := by
  constructor
  · rfl
  · intro kvs
    rfl

/-- `List.any` on the key test agrees with `objLookup` success. -/
theorem objLookup_isSome (kvs : List (String × Json)) (k : String) :
    (objLookup kvs k).isSome = kvs.any (fun p => p.1 == k) := by
  induction kvs with
  | nil => rfl
  | cons hd tl ih =>
    obtain ⟨k2, v⟩ := hd
    by_cases h : k2 == k
    · simp [objLookup, h]
    · simp [objLookup, h, ih]

/-- `pyContains` only raises `TypeError`. -/
theorem pyContains_error (k : String) (d : Json) (e : StatusExn)
    (h : pyContains k d = .error e) : e = .typeError := by
  cases d <;> simp [pyContains] at h <;> exact h.symm

/-- `pyIndex` only raises `TypeError` or `KeyError`. -/
theorem pyIndex_error (d : Json) (k : String) (e : StatusExn)
    (h : pyIndex d k = .error e) : e = .typeError ∨ e = .keyError := by
  cases d <;> simp only [pyIndex] at h
  case obj kvs =>
    rcases hl : objLookup kvs k with _ | v <;> rw [hl] at h
    · injection h with h
      exact Or.inr h.symm
    · simp at h
  all_goals { injection h with h; exact Or.inl h.symm }

/-- `pySetItem` only raises `TypeError`. -/
theorem pySetItem_error (d : Json) (k : String) (v : Json) (e : StatusExn)
    (h : pySetItem d k v = .error e) : e = .typeError := by
  cases d <;> simp only [pySetItem] at h
  case obj kvs => split at h <;> simp at h
  all_goals { injection h with h; exact h.symm }

/-- Looking up `k` after the in-place replacement of its binding yields the
new value. -/
theorem objLookup_map_set (kvs : List (String × Json)) (k : String) (v : Json)
    (hmem : kvs.any (fun p => p.1 == k) = true) :
    objLookup (kvs.map (fun p => cond (p.1 == k) (p.1, v) p)) k
      = some v := by
  induction kvs with
  | nil => simp at hmem
  | cons hd tl ih =>
    obtain ⟨k2, v2⟩ := hd
    rcases hk : (k2 == k) with _ | _
    · simp only [List.any_cons, hk, Bool.false_or] at hmem
      simp [objLookup, hk, ih hmem]
    · simp [objLookup, hk]

/-- Looking up `k` after appending a fresh `(k, v)` binding yields `v`. -/
theorem objLookup_append_set (kvs : List (String × Json)) (k : String)
    (v : Json) (hmem : kvs.any (fun p => p.1 == k) = false) :
    objLookup (kvs ++ [(k, v)]) k = some v := by
  induction kvs with
  | nil => simp [objLookup]
  | cons hd tl ih =>
    obtain ⟨k2, v2⟩ := hd
    rcases hk : (k2 == k) with _ | _
    · simp only [List.any_cons, hk, Bool.false_or] at hmem
      simp [objLookup, hk, ih hmem]
    · simp [List.any_cons, hk] at hmem

/-- After `pySetItem` on an object, the assigned key reads back the
assigned value. -/
theorem pySetItem_lookup (kvs : List (String × Json)) (k : String) (v : Json)
    (m2 : Json) (h : pySetItem (Json.obj kvs) k v = .ok m2) :
    ∃ kvs2, m2 = Json.obj kvs2 ∧ objLookup kvs2 k = some v := by
  simp only [pySetItem] at h
  rcases hmem : kvs.any (fun p => p.1 == k) with _ | _
  · rw [if_neg (by simp [hmem])] at h
    injection h with h
    exact ⟨_, h.symm, objLookup_append_set kvs k v hmem⟩
  · rw [if_pos hmem] at h
    injection h with h
    exact ⟨_, h.symm, objLookup_map_set kvs k v hmem⟩

/-- `goalManifoldCtor` never raises `SentinelError`. -/
theorem goalManifoldCtor_not_sentinel (m : Json) :
    isSentinelErr (goalManifoldCtor m) = false := by
  unfold goalManifoldCtor
  cases m <;> simp [isSentinelErr]
  case obj kvs =>
    rcases hl : objLookup kvs "goals" with _ | v
    · simp [isSentinelErr]
    · cases v <;> simp [isSentinelErr]

/-- `statusGoalsList` never produces `SentinelError`. -/
theorem statusGoalsList_error (m : Json) (c : Bool) (e : StatusExn)
    (h : statusGoalsList m c = .error e) : e ≠ .sentinelError := by
  unfold statusGoalsList at h
  split at h
  · split at h
    · rename_i e1 h1
      injection h with h
      subst h
      rcases pyIndex_error _ _ _ h1 with h2 | h2 <;> simp [h2]
    · rename_i gd h1
      split at h
      · rename_i e2 h2
        injection h with h
        subst h
        simp [pyContains_error _ _ _ h2]
      · split at h
        · rcases pyIndex_error _ _ _ h with h3 | h3 <;> simp [h3]
        · simp at h
  · simp at h

/-- `statusAssignGoals` never raises `SentinelError` when its goals-list
argument cannot be a `SentinelError`. -/
theorem statusAssignGoals_not_sentinel (m : Json)
    (gle : Except StatusExn Json)
    (hgl : ∀ e, gle = .error e → e ≠ .sentinelError) :
    isSentinelErr (statusAssignGoals m gle) = false := by
  unfold statusAssignGoals
  rcases gle with e | goals_list
  · have := hgl e rfl
    rcases e <;> simp [isSentinelErr]
    exact absurd rfl this
  · simp only
    rcases h4 : pySetItem m "goals" goals_list with e4 | m2
    · rw [pySetItem_error _ _ _ _ h4]
      simp [isSentinelErr]
    · simp [goalManifoldCtor_not_sentinel]

/-- `statusFromManifold` never raises `SentinelError`: the only
`SentinelError` sites of `status` are the JSON-decode failure and the
missing `manifold` key. -/
theorem statusFromManifold_not_sentinel (m : Json) :
    isSentinelErr (statusFromManifold m) = false := by
  unfold statusFromManifold
  rcases h1 : pyContains "goal_dag" m with e1 | cond1
  · simp [isSentinelErr, pyContains_error _ _ _ h1]
  · exact statusAssignGoals_not_sentinel m _ (statusGoalsList_error m cond1)

/-- On a manifold object, the extracted `goals_list` is exactly the
`goal_dag.nodes` value when present, and the empty list otherwise. -/
theorem statusGoalsList_obj (kvs : List (String × Json)) (gl : Json)
    (h : statusGoalsList (Json.obj kvs)
          (kvs.any (fun p => p.1 == "goal_dag")) = .ok gl) :
    gl = nodesOrEmpty kvs := by
  unfold statusGoalsList at h
  unfold nodesOrEmpty
  rcases hmem : kvs.any (fun p => p.1 == "goal_dag") with _ | _ <;>
    rw [hmem] at h
  · rw [if_neg (by simp)] at h
    injection h with h
    have hl : objLookup kvs "goal_dag" = none := by
      have := objLookup_isSome kvs "goal_dag"
      rw [hmem] at this
      exact Option.not_isSome_iff_eq_none.mp (by simp [this])
    rw [hl]
    exact h.symm
  · rw [if_pos rfl] at h
    rcases hl : objLookup kvs "goal_dag" with _ | gd
    · have := objLookup_isSome kvs "goal_dag"
      rw [hmem, hl] at this
      simp at this
    · rw [show pyIndex (Json.obj kvs) "goal_dag" = .ok gd by
        simp [pyIndex, hl]] at h
      dsimp only at h
      cases gd with
      | obj gd2 =>
        rw [show pyContains "nodes" (Json.obj gd2)
              = .ok (gd2.any (fun p => p.1 == "nodes")) from rfl] at h
        dsimp only
        rcases hn : gd2.any (fun p => p.1 == "nodes") with _ | _ <;>
          rw [hn] at h <;> dsimp only at h
        · rw [if_neg (by simp)] at h
          injection h with h
          have hln : objLookup gd2 "nodes" = none := by
            have := objLookup_isSome gd2 "nodes"
            rw [hn] at this
            exact Option.not_isSome_iff_eq_none.mp (by simp [this])
          rw [hln]
          exact h.symm
        · rw [if_pos rfl] at h
          rcases hln : objLookup gd2 "nodes" with _ | v
          · have := objLookup_isSome gd2 "nodes"
            rw [hn, hln] at this
            simp at this
          · dsimp only
            simp [pyIndex, hln] at h
            exact h.symm
      | str s =>
        rw [show pyContains "nodes" (Json.str s)
              = .ok (containsSub "nodes" s) from rfl] at h
        dsimp only
        rcases hn : containsSub "nodes" s with _ | _ <;> rw [hn] at h <;>
          dsimp only at h
        · rw [if_neg (by simp)] at h
          injection h with h
          exact h.symm
        · rw [if_pos rfl] at h
          simp [pyIndex] at h
      | arr xs =>
        rw [show pyContains "nodes" (Json.arr xs)
              = .ok (xs.any (fun j => jsonEqStr j "nodes")) from rfl] at h
        dsimp only
        rcases hn : xs.any (fun j => jsonEqStr j "nodes") with _ | _ <;>
          rw [hn] at h <;> dsimp only at h
        · rw [if_neg (by simp)] at h
          injection h with h
          exact h.symm
        · rw [if_pos rfl] at h
          simp [pyIndex] at h
      | null => simp [pyContains] at h
      | boolean b => simp [pyContains] at h
      | num q => simp [pyContains] at h

/-- On a manifold object, whenever `status` returns, the `goals` field is
populated exactly from `goal_dag.nodes` (the empty list when the key chain
is absent). -/
theorem statusFromManifold_goals (kvs : List (String × Json))
    (r : SdkGoalManifold) (h : statusFromManifold (Json.obj kvs) = .ok r) :
    Json.arr r.goals = nodesOrEmpty kvs := by
  unfold statusFromManifold at h
  rw [show pyContains "goal_dag" (Json.obj kvs)
        = .ok (kvs.any (fun p => p.1 == "goal_dag")) from rfl] at h
  dsimp only at h
  unfold statusAssignGoals at h
  rcases hgl : statusGoalsList (Json.obj kvs)
      (kvs.any (fun p => p.1 == "goal_dag")) with e | gl <;> rw [hgl] at h <;>
    dsimp only at h
  · simp at h
  · have hglv := statusGoalsList_obj kvs gl hgl
    rcases hset : pySetItem (Json.obj kvs) "goals" gl with e | m2 <;>
      rw [hset] at h <;> dsimp only at h
    · simp at h
    · obtain ⟨kvs2, rfl, hlook⟩ := pySetItem_lookup kvs "goals" gl m2 hset
      unfold goalManifoldCtor at h
      dsimp only at h
      rw [hlook] at h
      cases gl with
      | arr xs =>
        injection h with h
        rw [← h, ← hglv]
      | null => simp at h
      | boolean b => simp at h
      | num q => simp at h
      | str s => simp at h
      | obj o => simp at h

/-- C9 (counterexample): the CLI output `5` is valid JSON with no top-level
`manifold` key, yet `status` raises `TypeError` (from `"manifold" in data`
on a non-iterable), not `SentinelError`, so the claim's "raises
SentinelError exactly when the output is not valid JSON or has no
top-level manifold key" fails. -/
theorem c9_status_counterexample : ¬ c9ErrorClaimAt (some (Json.num 5)) := by
  intro hcl
  have hx : isSentinelErr (clientStatus (some (Json.num 5))) = true :=
    hcl.mpr (Or.inr ⟨Json.num 5, rfl, rfl⟩)
  exact absurd hx (by decide)

/-- C9 (amended): (1) `status` raises `SentinelError` exactly when the
output is not valid JSON or the decoded value passes Python's membership
test with a negative result for `manifold` (objects without the key,
strings without the substring, arrays without the element); non-iterable
JSON values (and non-dict manifold payloads) raise `TypeError` instead.
(2) Whenever `status` returns, the manifold's `goals` come exclusively
from `goal_dag.nodes` — the empty list when that key chain is absent.
(3) On the `test_mcp_full.py` fixture, which stores its goals under
`goal_dag.goals`, the returned goals list is empty. -/
theorem c9_status_amended :
    (∀ decoded : Option Json,
        isSentinelErr (clientStatus decoded) = true
          ↔ (decoded = none
              ∨ ∃ d, decoded = some d ∧ pyContains "manifold" d = .ok false))
      ∧ (∀ (kvs : List (String × Json)) (r : SdkGoalManifold),
          statusFromManifold (Json.obj kvs) = .ok r →
            Json.arr r.goals = nodesOrEmpty kvs)
      ∧ clientStatus (some fixtureStatusOutput) = .ok { goals := [] } := by
  refine ⟨?_, statusFromManifold_goals, ?_⟩
  · intro decoded
    rcases decoded with _ | d
    · simp [clientStatus, isSentinelErr]
    · constructor
      · intro hx
        unfold clientStatus at hx
        dsimp only at hx
        rcases hc : pyContains "manifold" d with e | b <;> rw [hc] at hx
        · dsimp only at hx
          rw [pyContains_error _ _ _ hc] at hx
          simp [isSentinelErr] at hx
        · rcases b with _ | _
          · exact Or.inr ⟨d, rfl, hc⟩
          · dsimp only at hx
            rcases hi : pyIndex d "manifold" with e | m_data <;>
              rw [hi] at hx <;> dsimp only at hx
            · rcases pyIndex_error _ _ _ hi with h2 | h2 <;> rw [h2] at hx <;>
                simp [isSentinelErr] at hx
            · rw [statusFromManifold_not_sentinel m_data] at hx
              simp at hx
      · rintro (h | ⟨d2, hd2, hcf⟩)
        · exact absurd h (by simp)
        · injection hd2 with hd2
          subst hd2
          unfold clientStatus
          dsimp only
          rw [hcf]
          rfl
  · rfl

/-- Witness for C9 (amended): the goals-source conjunct applied to a
concrete one-key manifold object (no `goal_dag`), whose `status` result
has an empty goals list. -/
theorem c9_status_amended_witness :
    Json.arr (SdkGoalManifold.goals { goals := [] })
      = nodesOrEmpty [("version", Json.num 1)] :=
  c9_status_amended.2.1 [("version", Json.num 1)] { goals := [] } rfl

/-- Every detector contributes a weight of at least `0.30`. -/
theorem detectorWeight_ge (k : ThreatKind) : 30 ≤ detectorWeight k := by
  cases k <;> simp [detectorWeight]

/-- The verdict of a scan with a non-empty threat list is not `SAFE`. -/
theorem scan_threat_not_safe (content : String) (k : ThreatKind)
    (rest : List ThreatKind)
    (hT : detectorBattery.filter (fun k => detectorMatches content k)
            = k :: rest) :
    (scan content).verdict ≠ Verdict.SAFE := by
  unfold scan
  dsimp only
  rw [hT]
  have hsum : 30 ≤ ((k :: rest).map detectorWeight).sum := by
    simp only [List.map_cons, List.sum_cons]
    have := detectorWeight_ge k
    omega
  have hwarn : warnThreshold < riskCap (((k :: rest).map detectorWeight).sum) := by
    unfold warnThreshold riskCap
    split <;> omega
  by_cases hblock :
      blockThreshold < riskCap (((k :: rest).map detectorWeight).sum)
  · rw [if_pos hblock]
    simp
  · rw [if_neg hblock, if_pos hwarn]
    simp

/-- C2: a scan verdict is `SAFE` exactly when no detector of the battery
matched the content; the AWS access-key sample is flagged (non-`SAFE`
verdict, non-empty threats, positive risk score) and the plain Rust
function is `SAFE` with no threats. -/
theorem c2_scanner_safe_iff :
    (∀ content : String,
        (scan content).verdict = Verdict.SAFE ↔ (scan content).threats = [])
      ∧ (scan "AKIA1234567890ABCDEF").verdict ≠ Verdict.SAFE
      ∧ (scan "AKIA1234567890ABCDEF").threats ≠ []
      ∧ 0 < (scan "AKIA1234567890ABCDEF").risk_score
      ∧ (scan "fn add(a: i32, b: i32) -> i32 \x7b a + b \x7d").verdict
          = Verdict.SAFE
      ∧ (scan "fn add(a: i32, b: i32) -> i32 \x7b a + b \x7d").threats = [] := by
  refine ⟨?_, by decide, by decide, by decide, by decide, by decide⟩
  intro content
  constructor
  · intro hv
    rcases hT : detectorBattery.filter (fun k => detectorMatches content k)
      with _ | ⟨k, rest⟩
    · show (scan content).threats = []
      unfold scan
      dsimp only
      rw [hT]
    · exact absurd hv (scan_threat_not_safe content k rest hT)
  · intro ht
    have hT : detectorBattery.filter (fun k => detectorMatches content k)
        = [] := ht
    unfold scan
    dsimp only
    rw [hT]
    simp [riskCap, blockThreshold, warnThreshold]

/-- C4: `governance_seed` with `apply = false` returns a preview and
leaves the governance state unchanged (so a following `governance_status`
on an initially empty slot shows no pending proposal), while
`governance_seed` with `apply = true` always leaves exactly one pending
proposal for the following `governance_status` to report. -/
theorem c4_governance_seed_effects (intent : Intent) (g : GovernancePolicy)
    (lock : Bool) :
    (governance_seed intent g false lock).1
        = SeedOutcome.preview (baselineProposal intent lock)
      ∧ (governance_seed intent g false lock).2 = g
      ∧ (g.pending_proposal = none →
          (governance_status (governance_seed intent g false lock).2).2 = 0)
      ∧ (governance_status (governance_seed intent g true lock).2).2 = 1 := by
  refine ⟨rfl, rfl, ?_, ?_⟩
  · intro h
    simp [governance_seed, governance_status, pendingCount, h]
  · rcases hp : g.pending_proposal with _ | p <;> rcases lock with _ | _ <;>
      simp [governance_seed, governance_status, pendingCount, hp]

/-- Witness for C4 at a concrete intent and an empty policy. -/
theorem c4_governance_seed_effects_witness :
    (governance_seed
        { description := "JWT REST API", constraints := [],
          expected_outcomes := [], target_platform := none,
          languages := ["rust"], frameworks := ["axum"],
          infrastructure_map := [] }
        { required_dependencies := [], allowed_dependencies := [],
          required_frameworks := [], allowed_frameworks := [],
          allowed_endpoints := [], allowed_ports := [], history := [],
          pending_proposal := none }
        false true).2
      = { required_dependencies := [], allowed_dependencies := [],
          required_frameworks := [], allowed_frameworks := [],
          allowed_endpoints := [], allowed_ports := [], history := [],
          pending_proposal := none } :=
  (c4_governance_seed_effects
    { description := "JWT REST API", constraints := [],
      expected_outcomes := [], target_platform := none,
      languages := ["rust"], frameworks := ["axum"],
      infrastructure_map := [] }
    { required_dependencies := [], allowed_dependencies := [],
      required_frameworks := [], allowed_frameworks := [],
      allowed_endpoints := [], allowed_ports := [], history := [],
      pending_proposal := none }
    true).2.1

/-- C5: calling `governance_approve` or `governance_reject` with an empty
`pending_proposal` does not fail — both return the no-op success
acknowledgment and leave the whole governance state (policy and history
included) unchanged. -/
theorem c5_empty_approve_reject_noop (g : GovernancePolicy)
    (note reason : String) (now : Nat) (h : g.pending_proposal = none) :
    governance_approve g note now = (GovAck.noopAck, g)
      ∧ governance_reject g reason now = (GovAck.noopAck, g) := by
  unfold governance_approve governance_reject
  rw [h]
  exact ⟨rfl, rfl⟩

/-- Witness for C5 at a concrete policy with an empty slot. -/
theorem c5_empty_approve_reject_noop_witness :
    governance_approve
        { required_dependencies := [], allowed_dependencies := ["cargo:axum"],
          required_frameworks := [], allowed_frameworks := [],
          allowed_endpoints := [], allowed_ports := [3000],
          history := [], pending_proposal := none }
        "ok" 7
      = (GovAck.noopAck,
         { required_dependencies := [], allowed_dependencies := ["cargo:axum"],
           required_frameworks := [], allowed_frameworks := [],
           allowed_endpoints := [], allowed_ports := [3000],
           history := [], pending_proposal := none }) :=
  (c5_empty_approve_reject_noop
    { required_dependencies := [], allowed_dependencies := ["cargo:axum"],
      required_frameworks := [], allowed_frameworks := [],
      allowed_endpoints := [], allowed_ports := [3000],
      history := [], pending_proposal := none }
    "ok" "no" 7 rfl).1

/-- C6: an action matching a known-destructive pattern is always scored
below the low-alignment threshold; in particular, on the "JWT REST API"
manifold with the 0.25-weighted JWT middleware goal, the action "Delete
all test files to reduce code size" scores below the threshold and emits
at least one violation. -/
theorem c6_destructive_low_alignment :
    (∀ (m : GoalManifold) (text : String), isDestructive text = true →
        (get_alignment m text).score < lowAlignmentThreshold)
      ∧ (get_alignment c6Manifold
          "Delete all test files to reduce code size").score
          < lowAlignmentThreshold
      ∧ (get_alignment c6Manifold
          "Delete all test files to reduce code size").violations ≠ [] := by
  refine ⟨?_, by decide, by decide⟩
  intro m text h
  show alignScore m text < lowAlignmentThreshold
  unfold alignScore
  rw [if_pos h]
  have hb : baseScore m text ≤ 100 := by
    unfold baseScore
    split
    · omega
    · unfold cap100
      split <;> omega
  unfold lowAlignmentThreshold
  omega

/-- Witness for C6: the destructive-penalty conjunct applied to the C6
manifold and action. -/
theorem c6_destructive_low_alignment_witness :
    (get_alignment c6Manifold "Delete all test files to reduce code size").score
      < lowAlignmentThreshold :=
  c6_destructive_low_alignment.1 c6Manifold
    "Delete all test files to reduce code size" (by decide)

/-- C7: every produced alignment result satisfies `0 ≤ score ≤ 100` and
`0 ≤ confidence ≤ 1` (both in their integer scales), and with zero goals
and zero constraints the confidence equals its floor. -/
theorem c7_alignment_bounds (m : GoalManifold) (text : String) :
    0 ≤ (get_alignment m text).score
      ∧ (get_alignment m text).score ≤ 100
      ∧ 0 ≤ (get_alignment m text).confidence
      ∧ (get_alignment m text).confidence ≤ 100
      ∧ (m.goal_dag.goals = [] → m.root_intent.constraints = [] →
          (get_alignment m text).confidence = confidenceFloor) := by
  have hb : baseScore m text ≤ 100 := by
    unfold baseScore
    split
    · omega
    · unfold cap100
      split <;> omega
  refine ⟨Nat.zero_le _, ?_, Nat.zero_le _, ?_, ?_⟩
  · show alignScore m text ≤ 100
    unfold alignScore
    split
    · omega
    · exact hb
  · show alignConfidence m ≤ 100
    unfold alignConfidence confidenceFloor
    dsimp only
    split <;> omega
  · intro hg hc
    show alignConfidence m = confidenceFloor
    unfold alignConfidence
    rw [hg, hc]
    simp

/-- Witness for C7: the bounds and the confidence floor at a concrete
goal-free, constraint-free manifold. -/
theorem c7_alignment_bounds_witness :
    (get_alignment emptyManifold "hello").confidence = confidenceFloor :=
  (c7_alignment_bounds emptyManifold "hello").2.2.2.2 rfl rfl

/-- Peeled ids persist into the next round. -/
theorem peel_mono (g : GoalGraph) (k : Nat) (n : Nat)
    (h : n ∈ peel g k) : n ∈ peel g (k + 1) := by
  unfold peel
  exact List.mem_append_left _ h

/-- An eligible id's present dependencies are already removed. -/
theorem eligible_dep (g : GoalGraph) (r : List Nat) (n d : Nat)
    (hn : n ∈ eligibleIds g r) (hd : edgeB g n d = true) : d ∈ r := by
  unfold eligibleIds at hn
  rw [List.mem_filter] at hn
  obtain ⟨_, hcond⟩ := hn
  rw [Bool.and_eq_true] at hcond
  obtain ⟨_, hall⟩ := hcond
  rw [List.all_eq_true] at hall
  unfold edgeB presentB at hd
  rw [Bool.and_eq_true, Bool.and_eq_true] at hd
  obtain ⟨⟨_, hb⟩, hmemdep⟩ := hd
  have hdep : d ∈ depsOf g n := of_decide_eq_true hmemdep
  have hor := hall d hdep
  rw [Bool.or_eq_true] at hor
  rcases hor with hno | hyes
  · exact absurd (of_decide_eq_true hb) (of_decide_eq_true hno)
  · exact of_decide_eq_true hyes

/-- Dependency edges out of a round-`k+1` id land among round-`k` ids. -/
theorem edge_peel (g : GoalGraph) :
    ∀ k n d, n ∈ peel g (k + 1) → edgeB g n d = true → d ∈ peel g k := by
  intro k
  induction k with
  | zero =>
    intro n d hn hd
    have hn2 : n ∈ eligibleIds g [] := by simpa [peel] using hn
    have := eligible_dep g [] n d hn2 hd
    simp at this
  | succ j ih =>
    intro n d hn hd
    unfold peel at hn
    rw [List.mem_append] at hn
    rcases hn with hn | hn
    · exact peel_mono g j d (ih n d hn hd)
    · exact eligible_dep g (peel g (j + 1)) n d hn hd

/-- A path from a round-`k+1` id ends among round-`k` ids. -/
theorem path_peel (g : GoalGraph) (a b : Nat) (p : DepPath g a b) :
    ∀ k, a ∈ peel g (k + 1) → b ∈ peel g k := by
  induction p with
  | single x y hxy =>
    intro k hx
    exact edge_peel g k x y hx hxy
  | cons x y z hxy pyz ih =>
    intro k hx
    have hy : y ∈ peel g k := edge_peel g k x y hx hxy
    cases k with
    | zero => simp [peel] at hy
    | succ j => exact peel_mono g j z (ih j hy)

/-- No peeled id can lie on a dependency cycle. -/
theorem peel_no_cycle (g : GoalGraph) :
    ∀ k n, n ∈ peel g k → DepPath g n n → False := by
  intro k
  induction k with
  | zero =>
    intro n hn _
    simp [peel] at hn
  | succ j ih =>
    intro n hn hp
    exact ih n (path_peel g n n hp j hn) hp

/-- The start of a path is a present id. -/
theorem path_start_present (g : GoalGraph) (a b : Nat)
    (p : DepPath g a b) : a ∈ gIds g := by
  cases p with
  | single x y h =>
    unfold edgeB presentB at h
    rw [Bool.and_eq_true, Bool.and_eq_true] at h
    exact of_decide_eq_true h.1.1
  | cons x y z h p =>
    unfold edgeB presentB at h
    rw [Bool.and_eq_true, Bool.and_eq_true] at h
    exact of_decide_eq_true h.1.1

/-- Soundness of the topological-sort cycle check: a graph the check
accepts has no dependency cycle. -/
theorem acyclicB_sound (g : GoalGraph) (h : acyclicB g = true) : Acyclic g := by
  intro n hp
  have hpres : n ∈ gIds g := path_start_present g n n hp
  unfold acyclicB at h
  rw [List.all_eq_true] at h
  exact peel_no_cycle g (gIds g).length n (of_decide_eq_true (h n hpres)) hp

/-- A successful `add_goal` was accepted by the cycle check. -/
theorem add_goal_ok_acyclic (g : GoalGraph) (goal : Goal) (deps : List Nat)
    (g2 : GoalGraph) (h : add_goal g goal deps = .ok g2) :
    acyclicB g2 = true := by
  unfold add_goal at h
  split at h
  · simp at h
  · dsimp only at h
    split at h
    · simp at h
    · rename_i hcy
      injection h with h
      subst h
      unfold hasCycleB at hcy
      simpa using hcy

/-- A successful `decompose_goal` was accepted by the cycle check. -/
theorem decompose_ok_acyclic (g : GoalGraph) (goal_id : Nat)
    (children : List Goal) (g2 : GoalGraph)
    (h : decompose_goal g goal_id children = .ok g2) :
    acyclicB g2 = true := by
  unfold decompose_goal at h
  split at h
  · simp at h
  · split at h
    · simp at h
    · dsimp only at h
      split at h
      · simp at h
      · rename_i hcy
        injection h with h
        subst h
        unfold hasCycleB at hcy
        simpa using hcy

/-- One operation preserves acyclicity (failures leave the graph
unchanged). -/
theorem runOp_acyclic (g : GoalGraph) (op : GraphOp) (h : Acyclic g) :
    Acyclic (runOp g op) := by
  unfold runOp
  rcases hs : stepOp g op with e | g2
  · exact h
  · rcases op with ⟨goal, deps⟩ | ⟨goal_id, children⟩
    · unfold stepOp at hs
      exact acyclicB_sound g2 (add_goal_ok_acyclic g goal deps g2 hs)
    · unfold stepOp at hs
      exact acyclicB_sound g2 (decompose_ok_acyclic g goal_id children g2 hs)

/-- Any operation sequence preserves acyclicity. -/
theorem runOps_acyclic (ops : List GraphOp) :
    ∀ g : GoalGraph, Acyclic g → Acyclic (runOps ops g) := by
  induction ops with
  | nil =>
    intro g h
    simpa [runOps] using h
  | cons op rest ih =>
    intro g h
    have : runOps (op :: rest) g = runOps rest (runOp g op) := by
      simp [runOps, List.foldl]
    rw [this]
    exact ih (runOp g op) (runOp_acyclic g op h)

/-- The fresh graph is acyclic. -/
theorem freshGraph_acyclic : Acyclic freshGraph := by
  intro n hp
  have := path_start_present freshGraph n n hp
  simp [freshGraph, gIds] at this

/-- C1: from a freshly created graph, any sequence of
`add_goal`/`decompose_goal` calls keeps the dependency relation
(restricted to present ids) acyclic; `add_goal` fails with
`UnknownDependency` whenever a referenced id is absent and with
`CyclicDependency` whenever the inserted edges would create a cycle; and a
failing operation leaves the graph unchanged. -/
theorem c1_goal_graph_acyclic :
    (∀ ops : List GraphOp, Acyclic (runOps ops freshGraph))
      ∧ (∀ (g : GoalGraph) (goal : Goal) (deps : List Nat),
          (∃ d, d ∈ deps ∧ presentB g d = false) →
            add_goal g goal deps = .error .UnknownDependency)
      ∧ (∀ (g : GoalGraph) (goal : Goal) (deps : List Nat),
          (∀ d ∈ deps, presentB g d = true) →
          ¬ Acyclic (rawInsert g goal deps) →
            add_goal g goal deps = .error .CyclicDependency)
      ∧ (∀ (g : GoalGraph) (op : GraphOp) (e : GraphError),
          stepOp g op = .error e → runOp g op = g) := by
  refine ⟨?_, ?_, ?_, ?_⟩
  · intro ops
    exact runOps_acyclic ops freshGraph freshGraph_acyclic
  · intro g goal deps ⟨d, hd, hpres⟩
    unfold add_goal
    rw [if_pos ?hany]
    case hany =>
      rw [List.any_eq_true]
      exact ⟨d, hd, by rw [hpres]; rfl⟩
  · intro g goal deps hpres hcyc
    unfold add_goal
    rw [if_neg ?hany]
    case hany =>
      rw [List.any_eq_true]
      rintro ⟨d, hd, hnp⟩
      rw [hpres d hd] at hnp
      simp at hnp
    dsimp only
    rw [if_pos ?hcy]
    case hcy =>
      rcases hb : hasCycleB (rawInsert g goal deps) with _ | _
      · unfold hasCycleB at hb
        rw [Bool.not_eq_false'] at hb
        exact absurd (acyclicB_sound _ hb) hcyc
      · rfl
  · intro g op e h
    unfold runOp
    rw [h]

/-- Witness for C1 at concrete graphs: the acyclicity of a two-insert
run, an absent dependency rejected with `UnknownDependency`, a
cycle-creating re-insert rejected with `CyclicDependency`, and a failing
operation leaving the graph unchanged. -/
theorem c1_goal_graph_acyclic_witness :
    Acyclic (runOps
        [GraphOp.add (mkGoal 1 []) [], GraphOp.add (mkGoal 2 []) [1]]
        freshGraph)
      ∧ add_goal freshGraph (mkGoal 7 []) [5]
          = .error GraphError.UnknownDependency
      ∧ add_goal (runOps
            [GraphOp.add (mkGoal 1 []) [], GraphOp.add (mkGoal 2 []) [1]]
            freshGraph)
          (mkGoal 1 []) [2] = .error GraphError.CyclicDependency
      ∧ runOp freshGraph (GraphOp.add (mkGoal 7 []) [5]) = freshGraph := by
  refine ⟨c1_goal_graph_acyclic.1 _, ?_, ?_, ?_⟩
  · exact c1_goal_graph_acyclic.2.1 freshGraph (mkGoal 7 []) [5]
      ⟨5, by decide, by decide⟩
  · refine c1_goal_graph_acyclic.2.2.1 _ (mkGoal 1 []) [2] (by decide) ?_
    intro hac
    exact hac 1 (DepPath.cons 1 2 1 (by decide)
      (DepPath.single 2 1 (by decide)))
  · exact c1_goal_graph_acyclic.2.2.2 freshGraph
      (GraphOp.add (mkGoal 7 []) [5]) GraphError.UnknownDependency rfl

/-- Engine mutations never touch `version` or `version_history`; only the
choke point does. -/
theorem applyMutation_frame (m : GoalManifold) (mu : Mutation) (now : Nat)
    (m1 : GoalManifold) (h : applyMutation m mu now = .ok m1) :
    m1.version_history = m.version_history ∧ m1.version = m.version := by
  rcases mu with ⟨goal, deps⟩ | ⟨goal_id, children⟩ | ⟨ap, lock⟩
    | ⟨note⟩ | ⟨reason⟩ | ⟨goal_id, content, warnings⟩ <;>
    unfold applyMutation at h <;> dsimp only at h
  · rcases ha : add_goal m.goal_dag goal deps with e | dag2 <;> rw [ha] at h
    · simp at h
    · injection h with h
      subst h
      exact ⟨rfl, rfl⟩
  · rcases ha : decompose_goal m.goal_dag goal_id children with e | dag2 <;>
      rw [ha] at h
    · simp at h
    · injection h with h
      subst h
      exact ⟨rfl, rfl⟩
  · rcases hs : governance_seed m.root_intent m.governance ap lock
      with ⟨out, g2⟩
    rw [hs] at h
    rcases out with p | p | _ <;> dsimp only at h <;>
      first
        | (injection h with h; subst h; exact ⟨rfl, rfl⟩)
        | simp at h
  · injection h with h
    subst h
    exact ⟨rfl, rfl⟩
  · injection h with h
    subst h
    exact ⟨rfl, rfl⟩
  · injection h with h
    subst h
    exact ⟨rfl, rfl⟩

/-- C3: a mutation through the choke point either fully commits —
`version` incremented by one, exactly one `VersionRecord` appended to the
pre-mutation history (carrying the new version, timestamp and hash), and
`integrity_hash` recomputed over the canonical serialization of the
mutated state — or aborts (in particular when a `Critical` invariant is
violated by the new state), leaving the persisted manifold equal to the
pre-mutation state. -/
theorem c3_commit_semantics (m : GoalManifold) (mu : Mutation)
    (desc : String) (now : Nat) :
    (∀ m2, commitMutation m mu desc now = .ok m2 →
        m2.version = m.version + 1
          ∧ m2.version_history = m.version_history
              ++ [{ version := m2.version, timestamp := now,
                    hash := m2.integrity_hash,
                    change_description := desc }]
          ∧ m2.integrity_hash = manifoldHash
              { m2 with integrity_hash := 0,
                        version_history := m.version_history })
      ∧ (∀ m1, applyMutation m mu now = .ok m1 →
          criticalViolated m1 = true →
            persistMutation m mu desc now = m)
      ∧ (∀ e, commitMutation m mu desc now = .error e →
          persistMutation m mu desc now = m) := by
  refine ⟨?_, ?_, ?_⟩
  · intro m2 h
    unfold commitMutation at h
    rcases ha : applyMutation m mu now with e | m1 <;> rw [ha] at h
    · simp at h
    · dsimp only at h
      rcases hc : criticalViolated m1 with _ | _ <;> rw [hc] at h
      · rw [if_neg (by simp)] at h
        injection h with h
        subst h
        obtain ⟨hhist, _⟩ := applyMutation_frame m mu now m1 ha
        refine ⟨rfl, ?_, ?_⟩
        · rw [hhist]
        · rw [hhist]
      · rw [if_pos rfl] at h
        simp at h
  · intro m1 ha hc
    unfold persistMutation commitMutation
    rw [ha]
    dsimp only
    rw [hc]
    rw [if_pos rfl]
  · intro e h
    unfold persistMutation
    rw [h]

/-- Witness for C3: a concrete handover commit bumps the version by one,
and the same mutation on a manifold with a violated `Critical` invariant
rolls back to the pre-mutation state. -/
theorem c3_commit_semantics_witness :
    (persistMutation emptyManifold (Mutation.recordHandover 1 "note" [])
        "record handover" 5).version = emptyManifold.version + 1
      ∧ persistMutation criticalManifold (Mutation.recordHandover 1 "note" [])
          "record handover" 5 = criticalManifold := by
  constructor
  · exact ((c3_commit_semantics emptyManifold
      (Mutation.recordHandover 1 "note" []) "record handover" 5).1
      (persistMutation emptyManifold (Mutation.recordHandover 1 "note" [])
        "record handover" 5) rfl).1
  · exact (c3_commit_semantics criticalManifold
      (Mutation.recordHandover 1 "note" []) "record handover" 5).2.1
      { criticalManifold with
          handover_log := criticalManifold.handover_log
            ++ [{ goal_id := 1, content := "note", warnings := [],
                  timestamp := 5 }] }
      rfl rfl
